import Mathlib

/-!
Shallow embedding of the run-tracking orchestration engine of the
galerians-autosplitter repository (`src/autosplitter.rs`, with supporting
data types from `src/main.rs`, `src/game.rs`, `src/lss.rs` and
`src/splits.rs`).

External collaborators (the LiveSplit timer client and the game-state
source) are modelled by an `Env` record of the values their queries return
on the tick under consideration; queries that can fail in Rust
(`get_timer_phase`, `get_split_index`, `get_custom_variable_value`) are
modelled with `Option`, `none` meaning the call returned an error.
Commands actually sent to the timer (`split`, `reset`) are collected in an
output list; sending a command is modelled as succeeding.
-/

namespace Galerians

/-- `KeepAliveCounter` from `src/autosplitter.rs`: a period and a
remaining-tick countdown, both `i32` (modelled as `Int`). -/
structure KeepAliveCounter where
  period : Int
  remaining : Int
deriving DecidableEq, Repr

def KeepAliveCounter.new (period : Int) : KeepAliveCounter :=
  { period := period, remaining := period }

def KeepAliveCounter.with_trigger_on_start (c : KeepAliveCounter) : KeepAliveCounter :=
  { c with remaining := 0 }

/-- `KeepAliveCounter::should_check`: decrement `remaining`; when it goes
negative, reset it to `period` and report `true`. Returns the result
together with the updated counter (the Rust method mutates in place). -/
def KeepAliveCounter.should_check (c : KeepAliveCounter) : Bool × KeepAliveCounter :=
  let r := c.remaining - 1
  if r < 0 then
    (true, { c with remaining := c.period })
  else
    (false, { c with remaining := r })

def KeepAliveCounter.reset (c : KeepAliveCounter) : KeepAliveCounter :=
  { c with remaining := c.period }

/-- `ConnectionState` from `src/autosplitter.rs`. -/
inductive ConnectionState where
  | LiveSplitPending
  | EmulatorPending
  | GamePending
  | Connected
deriving DecidableEq, Repr

/-- `ConnectionState::advance`. -/
def ConnectionState.advance : ConnectionState → ConnectionState
  | ConnectionState.LiveSplitPending => ConnectionState.EmulatorPending
  | ConnectionState.EmulatorPending => ConnectionState.GamePending
  | _ => ConnectionState.Connected

/-- `RunState` from `src/autosplitter.rs`. -/
inductive RunState where
  | NotStarted
  | Intro
  | Active
  | Finished
deriving DecidableEq, Repr

def RunState.is_started : RunState → Bool
  | RunState.NotStarted => false
  | _ => true

def RunState.is_active : RunState → Bool
  | RunState.Intro => true
  | RunState.Active => true
  | _ => false

/-- `TimerPhase` from `src/lss.rs`. -/
inductive TimerPhase where
  | NotRunning
  | Running
  | Ended
  | Paused
deriving DecidableEq, Repr

/-- `GameCheck` from `src/game.rs`. -/
inductive GameCheck where
  | Same
  | Changed
  | Unknown
deriving DecidableEq, Repr

def GameCheck.is_valid : GameCheck → Bool
  | GameCheck.Unknown => false
  | _ => true

/-- `Stage` from `src/game.rs`. -/
inductive Stage where
  | A
  | B
  | C
  | D
deriving DecidableEq, Repr

/-- `Map` from `src/game.rs` (`repr(u16)` with discriminants 0–8). -/
inductive Map where
  | Hospital15F
  | Hospital14F
  | Hospital13F
  | YourHouse1F
  | YourHouse2F
  | Hotel1F
  | Hotel2F
  | Hotel3F
  | MushroomTower
deriving DecidableEq, Repr

/-- The `repr(u16)` discriminant of a `Map` value, as used by the
`*map as u16` casts in `AutoSplitter::check_split_event`. -/
def Map.toU16 : Map → Nat
  | Map.Hospital15F => 0
  | Map.Hospital14F => 1
  | Map.Hospital13F => 2
  | Map.YourHouse1F => 3
  | Map.YourHouse2F => 4
  | Map.Hotel1F => 5
  | Map.Hotel2F => 6
  | Map.Hotel3F => 7
  | Map.MushroomTower => 8

/-- `Item` from `src/game.rs`. -/
inductive Item where
  | MemoryChip15F
  | SecurityCard
  | Beeject
  | FreezerRoomKey
  | PpecStorageKey
  | Fuse
  | LiquidExplosive
  | MemoryChip14F
  | SecurityCardReformatted
  | SpecialPpecOfficeKey
  | MemoryChip13F
  | TestLabKey
  | ControlRoomKey
  | ResearchLabKey
  | TwoHeadedSnake
  | TwoHeadedMonkey
  | TwoHeadedWolf
  | TwoHeadedEagle
  | YourHouseMemoryChip
  | BackdoorKey
  | DoorKnob
  | NineBall
  | MothersRing
  | FathersRing
  | LiliasDoll
  | Metamorphosis
  | BedroomKey
  | SecondFloorKey
  | MedicalStaffNotes
  | GProjectReport
  | PhotoOfParents
  | RionsTestData
  | DrLemsNotes
  | NewReplicativeComputerTheory
  | DrPascallesDiary
  | LetterFromElsa
  | Newspaper
  | ThreeBall
  | ShedKey
  | LetterFromLilia
  | DFelon
deriving DecidableEq, Repr

/-- `Event` from `src/splits.rs`. Room numbers are `u16` (modelled as
`Nat`), flag indices are `u32` (modelled as `Nat`). -/
inductive Event where
  | Room : Map → Nat → Event
  | Room2 : Map × Nat → Map × Nat → Event
  | Flag : Stage → Nat → Event
  | Item : Item → Event
deriving DecidableEq, Repr

/-- `SplitType` from `src/main.rs`. -/
inductive SplitType where
  | AllDoors
  | RouteDoors
  | KeyEvents
  | AllDoorsConsole
  | RouteDoorsConsole
deriving DecidableEq, Repr

/-- `SplitType::as_str` from `src/main.rs`. -/
def SplitType.as_str : SplitType → String
  | SplitType.AllDoors => "all-doors"
  | SplitType.RouteDoors => "route-doors"
  | SplitType.KeyEvents => "key-events"
  | SplitType.AllDoorsConsole => "all-doors-console"
  | SplitType.RouteDoorsConsole => "route-doors-console"

/-- `TryFrom<&str> for SplitType` from `src/main.rs`; `none` models `Err`. -/
def SplitType.try_from : String → Option SplitType
  | "AllDoors" => some SplitType.AllDoors
  | "all-doors" => some SplitType.AllDoors
  | "RouteDoors" => some SplitType.RouteDoors
  | "route-doors" => some SplitType.RouteDoors
  | "KeyEvents" => some SplitType.KeyEvents
  | "key-events" => some SplitType.KeyEvents
  | "AllDoorsConsole" => some SplitType.AllDoorsConsole
  | "all-doors-console" => some SplitType.AllDoorsConsole
  | "RouteDoorsConsole" => some SplitType.RouteDoorsConsole
  | "route-doors-console" => some SplitType.RouteDoorsConsole
  | _ => none

/-- `KEY_EVENT_SPLITS` from `src/splits.rs` (45 events). -/
def KEY_EVENT_SPLITS : List Event := [
  Event.Item Item.SecurityCard,
  Event.Item Item.FreezerRoomKey,
  Event.Item Item.PpecStorageKey,
  Event.Item Item.Fuse,
  Event.Item Item.LiquidExplosive,
  Event.Item Item.SpecialPpecOfficeKey,
  Event.Item Item.SecurityCardReformatted,
  Event.Item Item.PhotoOfParents,
  Event.Item Item.TestLabKey,
  Event.Item Item.ResearchLabKey,
  Event.Item Item.TwoHeadedSnake,
  Event.Item Item.TwoHeadedMonkey,
  Event.Item Item.TwoHeadedWolf,
  Event.Item Item.TwoHeadedEagle,
  Event.Room Map.YourHouse1F 11,
  Event.Item Item.BackdoorKey,
  Event.Item Item.SecondFloorKey,
  Event.Item Item.DoorKnob,
  Event.Item Item.BedroomKey,
  Event.Item Item.MothersRing,
  Event.Item Item.FathersRing,
  Event.Item Item.ThreeBall,
  Event.Item Item.NineBall,
  Event.Item Item.ShedKey,
  Event.Item Item.LiliasDoll,
  Event.Room Map.Hotel1F 0,
  Event.Flag Stage.C 5,
  Event.Flag Stage.C 17,
  Event.Flag Stage.C 10,
  Event.Flag Stage.C 144,
  Event.Flag Stage.C 143,
  Event.Flag Stage.C 54,
  Event.Flag Stage.C 145,
  Event.Flag Stage.C 142,
  Event.Flag Stage.C 47,
  Event.Flag Stage.C 35,
  Event.Flag Stage.C 95,
  Event.Flag Stage.C 23,
  Event.Flag Stage.C 11,
  Event.Room Map.Hotel3F 4,
  Event.Room Map.Hotel3F 6,
  Event.Room Map.Hotel1F 5,
  Event.Room Map.MushroomTower 0,
  Event.Room Map.MushroomTower 4,
  Event.Room Map.MushroomTower 7]

/-- `DOOR_SPLITS` from `src/splits.rs` (176 events). -/
def DOOR_SPLITS : List Event := [
  Event.Room Map.Hospital15F 1,
  Event.Room Map.Hospital15F 12,
  Event.Room Map.Hospital15F 2,
  Event.Room Map.Hospital15F 11,
  Event.Room Map.Hospital15F 3,
  Event.Room Map.Hospital15F 11,
  Event.Room Map.Hospital15F 13,
  Event.Room Map.Hospital15F 14,
  Event.Room Map.Hospital15F 4,
  Event.Room Map.Hospital15F 14,
  Event.Room Map.Hospital15F 6,
  Event.Room Map.Hospital15F 14,
  Event.Room Map.Hospital15F 0,
  Event.Room Map.Hospital15F 14,
  Event.Room Map.Hospital14F 10,
  Event.Room Map.Hospital14F 1,
  Event.Room Map.Hospital14F 0,
  Event.Room Map.Hospital14F 8,
  Event.Room Map.Hospital14F 0,
  Event.Room Map.Hospital14F 1,
  Event.Room Map.Hospital14F 10,
  Event.Room Map.Hospital15F 14,
  Event.Room Map.Hospital15F 13,
  Event.Room2 (Map.Hospital15F, 7) (Map.Hospital14F, 5),
  Event.Room Map.Hospital15F 13,
  Event.Room Map.Hospital15F 14,
  Event.Room Map.Hospital14F 10,
  Event.Room Map.Hospital14F 12,
  Event.Room Map.Hospital14F 7,
  Event.Room Map.Hospital13F 15,
  Event.Room Map.Hospital13F 0,
  Event.Room Map.Hospital13F 15,
  Event.Room2 (Map.Hospital13F, 9) (Map.Hospital13F, 10),
  Event.Room Map.Hospital13F 16,
  Event.Room Map.Hospital13F 1,
  Event.Room Map.Hospital13F 16,
  Event.Room2 (Map.Hospital13F, 9) (Map.Hospital13F, 10),
  Event.Room Map.Hospital14F 13,
  Event.Room Map.Hospital14F 2,
  Event.Room Map.Hospital14F 13,
  Event.Room2 (Map.Hospital13F, 9) (Map.Hospital13F, 10),
  Event.Room Map.Hospital13F 5,
  Event.Room2 (Map.Hospital13F, 9) (Map.Hospital13F, 10),
  Event.Room Map.Hospital13F 7,
  Event.Room Map.Hospital13F 8,
  Event.Room Map.Hospital13F 7,
  Event.Room2 (Map.Hospital13F, 9) (Map.Hospital13F, 10),
  Event.Room Map.Hospital13F 11,
  Event.Room2 (Map.Hospital13F, 9) (Map.Hospital13F, 10),
  Event.Room Map.Hospital13F 15,
  Event.Room Map.Hospital13F 2,
  Event.Room Map.Hospital13F 3,
  Event.Room Map.Hospital13F 17,
  Event.Room Map.Hospital13F 4,
  Event.Room Map.Hospital13F 19,
  Event.Room Map.Hospital14F 18,
  Event.Room Map.Hospital14F 4,
  Event.Room Map.YourHouse1F 11,
  Event.Room Map.YourHouse1F 9,
  Event.Room Map.YourHouse1F 3,
  Event.Room Map.YourHouse1F 12,
  Event.Room Map.YourHouse1F 5,
  Event.Room Map.YourHouse1F 12,
  Event.Room Map.YourHouse1F 13,
  Event.Room Map.YourHouse1F 14,
  Event.Room Map.YourHouse1F 7,
  Event.Room Map.YourHouse1F 14,
  Event.Room Map.YourHouse1F 13,
  Event.Room Map.YourHouse1F 12,
  Event.Room Map.YourHouse1F 3,
  Event.Room Map.YourHouse1F 0,
  Event.Room Map.YourHouse2F 0,
  Event.Room Map.YourHouse2F 9,
  Event.Room Map.YourHouse2F 1,
  Event.Room Map.YourHouse2F 9,
  Event.Room Map.YourHouse2F 10,
  Event.Room Map.YourHouse2F 11,
  Event.Room Map.YourHouse2F 10,
  Event.Room Map.YourHouse1F 13,
  Event.Room Map.YourHouse1F 12,
  Event.Room Map.YourHouse1F 4,
  Event.Room Map.YourHouse1F 12,
  Event.Room Map.YourHouse1F 3,
  Event.Room Map.YourHouse1F 0,
  Event.Room Map.YourHouse2F 0,
  Event.Room Map.YourHouse2F 9,
  Event.Room Map.YourHouse2F 10,
  Event.Room Map.YourHouse2F 11,
  Event.Room Map.YourHouse2F 6,
  Event.Room Map.YourHouse2F 11,
  Event.Room Map.YourHouse2F 10,
  Event.Room Map.YourHouse2F 9,
  Event.Room Map.YourHouse2F 3,
  Event.Room Map.YourHouse2F 2,
  Event.Room Map.YourHouse2F 3,
  Event.Room Map.YourHouse2F 9,
  Event.Room Map.YourHouse2F 0,
  Event.Room Map.YourHouse1F 0,
  Event.Room Map.YourHouse1F 11,
  Event.Room Map.YourHouse1F 9,
  Event.Room Map.YourHouse1F 3,
  Event.Room Map.YourHouse1F 12,
  Event.Room Map.YourHouse1F 13,
  Event.Room Map.YourHouse1F 14,
  Event.Room Map.YourHouse1F 7,
  Event.Room Map.YourHouse1F 15,
  Event.Room Map.YourHouse1F 7,
  Event.Room Map.YourHouse1F 14,
  Event.Room Map.YourHouse1F 13,
  Event.Room Map.YourHouse1F 12,
  Event.Room Map.YourHouse1F 3,
  Event.Room Map.YourHouse1F 0,
  Event.Room Map.YourHouse1F 11,
  Event.Room Map.YourHouse1F 10,
  Event.Room Map.YourHouse1F 2,
  Event.Room Map.YourHouse1F 10,
  Event.Room Map.Hotel1F 0,
  Event.Room Map.Hotel3F 6,
  Event.Room Map.Hotel3F 1,
  Event.Room Map.Hotel3F 6,
  Event.Flag Stage.C 50,
  Event.Room Map.Hotel1F 0,
  Event.Room Map.Hotel1F 1,
  Event.Room Map.Hotel1F 0,
  Event.Room Map.Hotel2F 6,
  Event.Room Map.Hotel2F 3,
  Event.Room Map.Hotel2F 6,
  Event.Room Map.Hotel2F 0,
  Event.Room Map.Hotel2F 6,
  Event.Flag Stage.C 27,
  Event.Room Map.Hotel2F 5,
  Event.Room Map.Hotel2F 6,
  Event.Flag Stage.C 15,
  Event.Room Map.Hotel2F 2,
  Event.Room Map.Hotel2F 6,
  Event.Room Map.Hotel3F 6,
  Event.Flag Stage.C 44,
  Event.Room Map.Hotel3F 3,
  Event.Room Map.Hotel3F 6,
  Event.Flag Stage.C 41,
  Event.Room Map.Hotel3F 2,
  Event.Room Map.Hotel3F 6,
  Event.Room Map.Hotel3F 4,
  Event.Room Map.Hotel3F 6,
  Event.Room Map.Hotel3F 0,
  Event.Room Map.Hotel3F 6,
  Event.Room Map.Hotel2F 6,
  Event.Room Map.Hotel2F 4,
  Event.Room Map.Hotel2F 6,
  Event.Room Map.Hotel2F 1,
  Event.Room Map.Hotel2F 6,
  Event.Room Map.Hotel3F 6,
  Event.Room Map.Hotel3F 4,
  Event.Room Map.Hotel3F 6,
  Event.Room Map.Hotel1F 0,
  Event.Room Map.Hotel1F 1,
  Event.Room Map.Hotel1F 0,
  Event.Room Map.Hotel1F 4,
  Event.Room Map.Hotel1F 6,
  Event.Room Map.Hotel1F 8,
  Event.Room Map.Hotel1F 6,
  Event.Room Map.Hotel1F 5,
  Event.Room Map.MushroomTower 0,
  Event.Room Map.MushroomTower 8,
  Event.Room Map.MushroomTower 0,
  Event.Room Map.MushroomTower 1,
  Event.Room Map.MushroomTower 8,
  Event.Room Map.MushroomTower 1,
  Event.Room Map.MushroomTower 2,
  Event.Room Map.MushroomTower 8,
  Event.Room Map.MushroomTower 2,
  Event.Room Map.MushroomTower 3,
  Event.Room Map.MushroomTower 8,
  Event.Room Map.MushroomTower 3,
  Event.Room Map.MushroomTower 4,
  Event.Room Map.MushroomTower 7]

/-- Modelled from the spec: `CONSOLE_DOOR_SPLITS` is referenced by
`SplitType::splits` in `src/main.rs` but its definition is not among the
provided sources. The spec describes the console route-doors strategy only
as "For console: split on doors, but only when the door is the expected
next door in the route"; no claim depends on the table's contents, only on
its presence as an active route table, so the contents are left
unspecified here. -/
def CONSOLE_DOOR_SPLITS : List Event := []

/-- `SplitType::splits` from `src/main.rs`: which route table (if any) a
split type activates. -/
def SplitType.splits : SplitType → Option (List Event)
  | SplitType.AllDoors => none
  | SplitType.AllDoorsConsole => none
  | SplitType.RouteDoors => some DOOR_SPLITS
  | SplitType.KeyEvents => some KEY_EVENT_SPLITS
  | SplitType.RouteDoorsConsole => some CONSOLE_DOOR_SPLITS

/-- `SECOND_ROOM` from `src/autosplitter.rs`. -/
def SECOND_ROOM : Nat × Nat := (0, 1)

/-- `FINAL_BOSS_ROOM` from `src/autosplitter.rs`. -/
def FINAL_BOSS_ROOM : Nat × Nat := (8, 7)

def LIVE_SPLIT_KEEP_ALIVE : Int := 334

def EMULATOR_KEEP_ALIVE : Int := 334

def GAME_KEEP_ALIVE : Int := 200

/-- A command actually sent to the LiveSplit timer client. -/
inductive Cmd where
  | split
  | reset
deriving DecidableEq, Repr

/-- The external world as observed during one tick: results of the
LiveSplit queries (`none` = the call returned an error) and of the
game-state-source queries. -/
structure Env where
  timer_phase : Option TimerPhase
  split_index : Option Int
  custom_var : Option (Option String)
  live_split_connected : Bool
  check_emulator : Bool
  check_version : GameCheck
  map_id : Nat
  room_id : Nat
  is_at_main_menu : Bool
  is_new_game_start : Bool
  flag : Stage → Nat → Bool
  has_item : Item → Bool
  has_defeated_final_boss : Bool

/-- The mutable fields of `AutoSplitter` (the external handles `live_split`
and `game` are replaced by `Env`; `update_frequency` only feeds the sleep
and is omitted). -/
structure AS where
  connection_state : ConnectionState
  run_state : RunState
  last_room : Nat × Nat
  live_split_keep_alive : KeepAliveCounter
  emulator_keep_alive : KeepAliveCounter
  game_keep_alive : KeepAliveCounter
  requested_split_type : Option SplitType
  effective_split_type : Option SplitType
  last_reported_split_type : Option SplitType
  splits : Option (List Event)
deriving DecidableEq, Repr

/-- `AutoSplitter::current_room`: `(game.map_id(), game.room_id())`. -/
def current_room (env : Env) : Nat × Nat := (env.map_id, env.room_id)

/-- `AutoSplitter::split`. Returns the updated state and the commands sent
to the timer. -/
def AS.split (s : AS) : AS × List Cmd :=
  if s.run_state = RunState.Finished then
    (s, [])
  else
    let s1 :=
      if s.run_state = RunState.NotStarted then
        { s with run_state := RunState.Intro, last_room := (0, 0) }
      else s
    (s1, [Cmd.split])

/-- `AutoSplitter::reset`. Returns the updated state and the commands sent
to the timer. -/
def AS.reset (s : AS) : AS × List Cmd :=
  if s.run_state.is_started then
    ({ s with run_state := RunState.NotStarted }, [Cmd.reset])
  else
    (s, [])

/-- `AutoSplitter::conn_fail`. `ls_connected` is the value of
`live_split.is_connected()` at this point. -/
def AS.conn_fail (s : AS) (new_state : ConnectionState) (ls_connected : Bool) :
    AS × List Cmd :=
  let s1 := { s with connection_state := new_state }
  if ls_connected then s1.reset else (s1, [])

/-- `AutoSplitter::set_split_type`. -/
def AS.set_split_type (s : AS) (split_type : SplitType) : AS :=
  { s with effective_split_type := some split_type, splits := split_type.splits }

/-- `AutoSplitter::get_live_split_split_type`: read the
`GaleriansSplitType` custom variable and parse it; a parse failure is
logged and treated as absent. Outer `none` = the query itself failed. -/
def get_live_split_split_type (env : Env) : Option (Option SplitType) :=
  match env.custom_var with
  | none => none
  | some none => some none
  | some (some str_split_type) =>
    match SplitType.try_from str_split_type with
    | none => some none
    | some split_type => some (some split_type)

/-- `AutoSplitter::sync_split_type`. The `Bool` is the success flag
(`false` = the custom-variable query failed and the Rust function returned
`Err` before mutating anything). -/
def AS.sync_split_type (s : AS) (env : Env) : AS × List Cmd × Bool :=
  match get_live_split_split_type env with
  | none => (s, [], false)
  | some live_split_split_type =>
    let (s1, cmds) :=
      match s.requested_split_type, s.effective_split_type, live_split_split_type with
      | none, none, none => (s.set_split_type SplitType.AllDoors, [])
      | none, none, some split_type => (s.set_split_type split_type, [])
      | none, some old_split_type, some new_split_type =>
        if old_split_type ≠ new_split_type then
          (s.set_split_type new_split_type).reset
        else
          (s, [])
      | _, some _, none => (s, [])
      | some requested_split_type, none, none =>
        (s.set_split_type requested_split_type, [])
      | some requested_split_type, none, some _ =>
        (s.set_split_type requested_split_type, [])
      | some _, some _, some _ => (s, [])
    ({ s1 with last_reported_split_type := live_split_split_type }, cmds, true)

/-- `AutoSplitter::sync_with_live_split`. The `Bool` is the success flag;
on failure the partially-updated state is kept, as the Rust method mutates
`self` in place before the failing call. -/
def AS.sync_with_live_split (s : AS) (env : Env) : AS × List Cmd × Bool :=
  match env.timer_phase with
  | none => (s, [], false)
  | some phase =>
    let new_run_state : Option RunState :=
      match phase with
      | TimerPhase.NotRunning => some RunState.NotStarted
      | TimerPhase.Ended => some RunState.Finished
      | _ =>
        if s.run_state ≠ RunState.Active then
          match env.split_index with
          | none => none
          | some i => some (if i = 0 then RunState.Intro else RunState.Active)
        else
          some RunState.Active
    match new_run_state with
    | none => (s, [], false)
    | some rs => ({ s with run_state := rs }).sync_split_type env

/-- `AutoSplitter::check_split_event`. `none` = the split-index query
failed (the Rust function returned `Err`). -/
def AS.check_split_event (s : AS) (env : Env) : Option Bool :=
  match env.split_index with
  | none => none
  | some split_index =>
    if split_index < 0 then
      some false
    else
      match s.splits.bind (fun evts => evts.get? split_index.toNat) with
      | none => some false
      | some event =>
        some (match event with
          | Event.Room map room => decide ((map.toU16, room) = current_room env)
          | Event.Room2 (map1, room1) (map2, room2) =>
            decide ((map1.toU16, room1) = current_room env) ||
              decide ((map2.toU16, room2) = current_room env)
          | Event.Flag stage flag => env.flag stage flag
          | Event.Item item => env.has_item item)

/-- The run-state-machine and progression portion of
`AutoSplitter::update_splits` (everything after the three keep-alive
checks). `Except.error` models the `?` on `check_split_event`. -/
def AS.run_tick (s : AS) (env : Env) : Except Unit (AS × List Cmd) :=
  if s.run_state.is_active && env.is_at_main_menu then
    Except.ok s.reset
  else if !s.run_state.is_active && env.is_new_game_start then
    let (s1, c1) := if s.run_state = RunState.Finished then s.reset else (s, [])
    let (s2, c2) := s1.split
    Except.ok (s2, c1 ++ c2)
  else if s.run_state = RunState.Intro then
    if current_room env = SECOND_ROOM then
      let s1 := { s with run_state := RunState.Active, last_room := SECOND_ROOM }
      if s1.splits = none then Except.ok s1.split else Except.ok (s1, [])
    else
      Except.ok (s, [])
  else if s.run_state ≠ RunState.Active then
    Except.ok (s, [])
  else
    let cur := current_room env
    if s.last_room = FINAL_BOSS_ROOM then
      if env.has_defeated_final_boss then
        let (s1, c1) := s.split
        Except.ok ({ s1 with run_state := RunState.Finished, last_room := cur }, c1)
      else
        Except.ok ({ s with last_room := cur }, [])
    else if s.splits.isSome then
      match s.check_split_event env with
      | none => Except.error ()
      | some true =>
        let (s1, c1) := s.split
        Except.ok ({ s1 with last_room := cur }, c1)
      | some false => Except.ok ({ s with last_room := cur }, [])
    else if s.last_room ≠ cur then
      let (s1, c1) := s.split
      Except.ok ({ s1 with last_room := cur }, c1)
    else
      Except.ok ({ s with last_room := cur }, [])

/-- The game keep-alive portion of `AutoSplitter::update_splits`, followed
by `run_tick`. -/
def AS.game_check_tick (s : AS) (env : Env) : Except Unit (AS × List Cmd) :=
  let (b, ka) := s.game_keep_alive.should_check
  let s1 := { s with game_keep_alive := ka }
  if b then
    match env.check_version with
    | GameCheck.Same => s1.run_tick env
    | GameCheck.Changed => Except.ok s1.reset
    | GameCheck.Unknown =>
      Except.ok (s1.conn_fail ConnectionState.GamePending env.live_split_connected)
  else
    s1.run_tick env

/-- The emulator keep-alive portion of `AutoSplitter::update_splits`,
followed by the game check. -/
def AS.emulator_check_tick (s : AS) (env : Env) : Except Unit (AS × List Cmd) :=
  let (b, ka) := s.emulator_keep_alive.should_check
  let s1 := { s with emulator_keep_alive := ka }
  if b && !env.check_emulator then
    Except.ok (s1.conn_fail ConnectionState.EmulatorPending env.live_split_connected)
  else
    s1.game_check_tick env

/-- `AutoSplitter::update_splits`: one full `Connected` tick. -/
def AS.update_splits (s : AS) (env : Env) : Except Unit (AS × List Cmd) :=
  let (b, ka) := s.live_split_keep_alive.should_check
  let s1 := { s with live_split_keep_alive := ka }
  if b then
    let (s2, c1, ok) := s1.sync_with_live_split env
    if !ok && !env.live_split_connected then
      let (s3, c2) := s2.conn_fail ConnectionState.LiveSplitPending env.live_split_connected
      Except.ok (s3, c1 ++ c2)
    else
      match s2.emulator_check_tick env with
      | Except.error e => Except.error e
      | Except.ok (s3, c2) => Except.ok (s3, c1 ++ c2)
  else
    s1.emulator_check_tick env

/-- A freshly-created state (the mutable fields of `AutoSplitter::create`),
used to build concrete states for witnesses and counterexamples. -/
def baseState : AS :=
  { connection_state := ConnectionState.Connected
    run_state := RunState.NotStarted
    last_room := (0, 0)
    live_split_keep_alive := KeepAliveCounter.new LIVE_SPLIT_KEEP_ALIVE
    emulator_keep_alive := KeepAliveCounter.new EMULATOR_KEEP_ALIVE
    game_keep_alive := KeepAliveCounter.new GAME_KEEP_ALIVE
    requested_split_type := none
    effective_split_type := none
    last_reported_split_type := none
    splits := none }

/-- A healthy, uneventful tick's observations, used to build concrete
environments for witnesses and counterexamples. -/
def baseEnv : Env :=
  { timer_phase := some TimerPhase.Running
    split_index := some 0
    custom_var := some none
    live_split_connected := true
    check_emulator := true
    check_version := GameCheck.Same
    map_id := 0
    room_id := 0
    is_at_main_menu := false
    is_new_game_start := false
    flag := fun _ _ => false
    has_item := fun _ => false
    has_defeated_final_boss := false }

/-- A state in which reconciliation rule 3 fires while a run is active. -/
def rule3ActiveState : AS :=
  { baseState with
    run_state := RunState.Active
    effective_split_type := some SplitType.AllDoors }

/-- An environment whose published split type is `key-events`. -/
def rule3Env : Env := { baseEnv with custom_var := some (some "key-events") }

/-- A not-started state with a stale `last_room` and an effective split
type already chosen. -/
def staleRoomState : AS :=
  { baseState with
    last_room := (5, 5)
    effective_split_type := some SplitType.AllDoors }

/-- An environment in which the timer reports phase Ended while the
published split type changed to `key-events`. -/
def endedEnv : Env := { rule3Env with timer_phase := some TimerPhase.Ended }

/-- The counter state after `n` successive `should_check` calls. -/
def KeepAliveCounter.afterCalls (c : KeepAliveCounter) : Nat → KeepAliveCounter
  | 0 => c
  | n + 1 => ((c.afterCalls n).should_check).2

/-- The result of the `(n+1)`-th `should_check` call (0-indexed). -/
def KeepAliveCounter.callResult (c : KeepAliveCounter) (n : Nat) : Bool :=
  ((c.afterCalls n).should_check).1

/-- An active all-doors state sitting in the final-boss room. -/
def bossRoomState : AS :=
  { baseState with
    run_state := RunState.Active
    last_room := (8, 7) }

/-- An environment reporting the current room as `(0, 5)`. -/
def bossRoomEnv : Env := { baseEnv with room_id := 5 }

/-- A healthy active all-doors state one tick away from a room change. -/
def roomChangeState : AS :=
  { baseState with
    run_state := RunState.Active
    last_room := (0, 1) }

/-- C4: For every sequence of ticks and every call site, calling `split()`
while RunState is Finished is a no-op: no split command is sent to the
timer client and no state field changes. -/
theorem split_noop_when_finished (s : AS) (h : s.run_state = RunState.Finished) :
    s.split = (s, []) := by
  simp [AS.split, h]

theorem split_noop_when_finished_witness :
    ({ baseState with run_state := RunState.Finished } : AS).split =
      ({ baseState with run_state := RunState.Finished }, []) :=
  split_noop_when_finished { baseState with run_state := RunState.Finished } rfl

/-- C10: `reset()` is a no-op on a not-started run (no reset command is
sent and the state is unchanged), and since any `reset()` leaves the run
not started, two consecutive `reset()` calls have the same effect as
one. -/
theorem reset_noop_not_started_idempotent :
    (∀ s : AS, s.run_state = RunState.NotStarted → s.reset = (s, [])) ∧
    (∀ s : AS, (s.reset.1.run_state = RunState.NotStarted) ∧
      s.reset.1.reset = (s.reset.1, [])) := by
  constructor
  · intro s h
    simp [AS.reset, h, RunState.is_started]
  · intro s
    cases hr : s.run_state <;>
      simp [AS.reset, hr, RunState.is_started]

theorem reset_noop_not_started_idempotent_witness :
    baseState.reset = (baseState, []) ∧
    ({ baseState with run_state := RunState.Active } : AS).reset.1.reset =
      (({ baseState with run_state := RunState.Active } : AS).reset.1, []) :=
  ⟨reset_noop_not_started_idempotent.1 baseState rfl,
   (reset_noop_not_started_idempotent.2 { baseState with run_state := RunState.Active }).2⟩

/-- C7: For every reported split index `i` and every active route table,
if `i` is negative or at least the table's length, split-event matching
returns `false` ("not matched") rather than an error. -/
theorem check_split_event_out_of_range (s : AS) (env : Env) (i : Int) (tbl : List Event)
    (hidx : env.split_index = some i) (htbl : s.splits = some tbl)
    (hout : i < 0 ∨ (tbl.length : Int) ≤ i) :
    s.check_split_event env = some false := by
  unfold AS.check_split_event
  rw [hidx]
  rcases hout with hneg | hge
  · simp [hneg]
  · have hnot : ¬ i < 0 := by omega
    have hlen : tbl.length ≤ i.toNat := by omega
    simp [hnot, htbl, List.getElem?_eq_none hlen]

theorem check_split_event_out_of_range_witness :
    ({ baseState with splits := some KEY_EVENT_SPLITS } : AS).check_split_event
      { baseEnv with split_index := some 45 } = some false :=
  check_split_event_out_of_range _ _ 45 KEY_EVENT_SPLITS rfl rfl
    (Or.inr (by norm_num [KEY_EVENT_SPLITS]))

/-- C6 counterexample: a non-timer dependency (the emulator) fails while
the timer connection is alive, but the run is not started, so `reset()`
sends no reset command — contradicting "a reset is issued". -/
theorem conn_fail_counterexample :
    (baseState.conn_fail ConnectionState.EmulatorPending true).2 = [] := by
  decide

/-- C6 (amended): `conn_fail` demotes the connection state; when the timer
connection is dead no reset command is attempted, and when it is alive a
reset command is sent precisely when a run was started. -/
theorem conn_fail_reset_policy (s : AS) (new_state : ConnectionState) (alive : Bool) :
    (s.conn_fail new_state alive).1.connection_state = new_state ∧
    (alive = false → (s.conn_fail new_state alive).2 = []) ∧
    (alive = true →
      (s.conn_fail new_state alive).2 =
        if s.run_state.is_started then [Cmd.reset] else []) := by
  refine ⟨?_, ?_, ?_⟩
  · cases alive <;> cases hr : s.run_state <;>
      simp [AS.conn_fail, AS.reset, hr, RunState.is_started]
  · intro h
    simp [AS.conn_fail, h]
  · intro h
    cases hr : s.run_state <;>
      simp [AS.conn_fail, AS.reset, hr, RunState.is_started, h]

theorem conn_fail_reset_policy_witness :
    (({ baseState with run_state := RunState.Active } : AS).conn_fail
        ConnectionState.EmulatorPending true).2 = [Cmd.reset] := by
  have h := (conn_fail_reset_policy { baseState with run_state := RunState.Active }
    ConnectionState.EmulatorPending true).2.2 rfl
  simpa [RunState.is_started] using h

/-- C3 counterexample: reconciliation rule 3 fires (no user request,
effective type `AllDoors`, published type `key-events`) while the run is
not started; the effective type is updated but no reset command is sent
that tick — contradicting "a reset is emitted in that same tick". -/
theorem sync_split_type_rule3_counterexample :
    (({ baseState with effective_split_type := some SplitType.AllDoors } : AS).sync_split_type
        { baseEnv with custom_var := some (some "key-events") }).1.effective_split_type =
      some SplitType.KeyEvents ∧
    (({ baseState with effective_split_type := some SplitType.AllDoors } : AS).sync_split_type
        { baseEnv with custom_var := some (some "key-events") }).2.1 = [] := by
  constructor <;> rfl

/-- C3 (amended): when reconciliation runs with no user-requested type, an
effective type already set, and a differing published type, the effective
type (and active route table) is updated to the published type and
`reset()` is invoked in the same tick — which sends a reset command to the
timer precisely when a run was started, returning the run state to
NotStarted. -/
theorem sync_split_type_rule3 (s : AS) (env : Env)
    (old_split_type new_split_type : SplitType)
    (hreq : s.requested_split_type = none)
    (heff : s.effective_split_type = some old_split_type)
    (hpub : get_live_split_split_type env = some (some new_split_type))
    (hne : old_split_type ≠ new_split_type) :
    (s.sync_split_type env).1.effective_split_type = some new_split_type ∧
    (s.sync_split_type env).1.splits = new_split_type.splits ∧
    (s.sync_split_type env).2.2 = true ∧
    ((s.sync_split_type env).2.1 =
      if s.run_state.is_started then [Cmd.reset] else []) ∧
    (s.run_state.is_started = true →
      (s.sync_split_type env).1.run_state = RunState.NotStarted) := by
  unfold AS.sync_split_type
  rw [hpub, hreq, heff]
  simp only [hne, ne_eq, not_false_iff, if_true]
  cases hs : (s.set_split_type new_split_type).run_state.is_started <;>
    simp_all [AS.reset, AS.set_split_type, RunState.is_started]

theorem sync_split_type_rule3_witness :
    (rule3ActiveState.sync_split_type rule3Env).2.1 = [Cmd.reset] := by
  have h := (sync_split_type_rule3 rule3ActiveState rule3Env
    SplitType.AllDoors SplitType.KeyEvents rfl rfl rfl (by decide)).2.2.2.1
  simpa [rule3ActiveState, baseState, RunState.is_started] using h

/-- Helper: `sync_split_type` either leaves the run state alone or — via
reconciliation rule 3 — resets it to NotStarted while sending a reset
command. -/
theorem sync_split_type_run_state (s : AS) (env : Env) :
    (s.sync_split_type env).1.run_state = s.run_state ∨
    ((s.sync_split_type env).1.run_state = RunState.NotStarted ∧
     Cmd.reset ∈ (s.sync_split_type env).2.1) := by
  obtain ⟨cs, rs, lr, k1, k2, k3, req, eff, lastrep, spl⟩ := s
  unfold AS.sync_split_type
  cases hv : get_live_split_split_type env with
  | none => left; rfl
  | some lst =>
    rcases req with _ | r <;> rcases eff with _ | old <;> rcases lst with _ | new <;>
      try (exact Or.inl rfl)
    by_cases hne : old = new
    · left; simp [hne]
    · cases rs <;>
        simp [hne, AS.reset, AS.set_split_type, RunState.is_started]

/-- Helper: `sync_split_type` never touches `last_room`. -/
theorem sync_split_type_last_room (s : AS) (env : Env) :
    (s.sync_split_type env).1.last_room = s.last_room := by
  obtain ⟨cs, rs, lr, k1, k2, k3, req, eff, lastrep, spl⟩ := s
  unfold AS.sync_split_type
  cases hv : get_live_split_split_type env with
  | none => rfl
  | some lst =>
    rcases req with _ | r <;> rcases eff with _ | old <;> rcases lst with _ | new <;>
      try rfl
    by_cases hne : old = new
    · simp [hne]
    · cases rs <;>
        simp [hne, AS.reset, AS.set_split_type, RunState.is_started]

/-- Helper: `sync_with_live_split` either fails without touching the state
at all, or is `sync_split_type` applied after assigning the run state
mirrored from the timer phase. -/
theorem sync_with_live_split_cases (s : AS) (env : Env) :
    s.sync_with_live_split env = (s, [], false) ∨
    (∃ rs, s.sync_with_live_split env = ({ s with run_state := rs }).sync_split_type env) := by
  unfold AS.sync_with_live_split
  cases hp : env.timer_phase with
  | none => left; rfl
  | some phase =>
    cases phase
    case NotRunning => right; exact ⟨_, rfl⟩
    case Ended => right; exact ⟨_, rfl⟩
    case Running =>
      by_cases hact : s.run_state = RunState.Active
      · right; refine ⟨RunState.Active, ?_⟩; simp [hact]
      · cases hi : env.split_index with
        | none => left; simp [hact]
        | some i =>
          right
          refine ⟨if i = 0 then RunState.Intro else RunState.Active, ?_⟩
          simp [hact]
    case Paused =>
      by_cases hact : s.run_state = RunState.Active
      · right; refine ⟨RunState.Active, ?_⟩; simp [hact]
      · cases hi : env.split_index with
        | none => left; simp [hact]
        | some i =>
          right
          refine ⟨if i = 0 then RunState.Intro else RunState.Active, ?_⟩
          simp [hact]

/-- Helper: `sync_with_live_split` never touches `last_room`. -/
theorem sync_with_live_split_last_room (s : AS) (env : Env) :
    (s.sync_with_live_split env).1.last_room = s.last_room := by
  rcases sync_with_live_split_cases s env with h | ⟨rs, h⟩
  · rw [h]
  · rw [h]
    exact sync_split_type_last_room { s with run_state := rs } env

/-- C2 counterexample: resynchronization moves the run state into Intro
(timer phase Running, split index 0, prior state not Active) without
resetting `last_room` to the sentinel `(0, 0)`. -/
theorem intro_last_room_counterexample :
    (staleRoomState.sync_with_live_split baseEnv).1.run_state = RunState.Intro ∧
    (staleRoomState.sync_with_live_split baseEnv).1.last_room ≠ (0, 0) := by
  constructor
  · rfl
  · decide

/-- C2 (amended): `split()` from NotStarted transitions into Intro and
resets `last_room` to the sentinel `(0, 0)`; resynchronization with the
timer, by contrast, can enter Intro while leaving `last_room` untouched
(it never modifies `last_room`). -/
theorem into_intro_last_room (s : AS) (env : Env) :
    (s.run_state = RunState.NotStarted →
      s.split.1.run_state = RunState.Intro ∧ s.split.1.last_room = (0, 0)) ∧
    (s.sync_with_live_split env).1.last_room = s.last_room := by
  constructor
  · intro h
    simp [AS.split, h]
  · exact sync_with_live_split_last_room s env

theorem into_intro_last_room_witness :
    baseState.split.1.run_state = RunState.Intro ∧
    baseState.split.1.last_room = (0, 0) ∧
    (staleRoomState.sync_with_live_split baseEnv).1.last_room = (5, 5) := by
  refine ⟨((into_intro_last_room baseState baseEnv).1 rfl).1,
    ((into_intro_last_room baseState baseEnv).1 rfl).2, ?_⟩
  exact (into_intro_last_room staleRoomState baseEnv).2

/-- C5 counterexample: the timer reports phase Ended, but split-type
reconciliation rule 3 fires in the same resynchronization and resets the
run, so the resulting RunState is NotStarted, not Finished. -/
theorem sync_ended_counterexample :
    (rule3ActiveState.sync_with_live_split endedEnv).1.run_state ≠ RunState.Finished := by
  decide

/-- C5 (amended): when resynchronization reads timer phase Ended, the run
state is set to Finished regardless of the prior state; the resulting
RunState is Finished unless the split-type reconciliation performed in the
same call forces a reset, in which case it ends as NotStarted with a reset
command sent. -/
theorem sync_ended_finishes (s : AS) (env : Env)
    (h : env.timer_phase = some TimerPhase.Ended) :
    (s.sync_with_live_split env).1.run_state = RunState.Finished ∨
    (Cmd.reset ∈ (s.sync_with_live_split env).2.1 ∧
     (s.sync_with_live_split env).1.run_state = RunState.NotStarted) := by
  have hred : s.sync_with_live_split env =
      ({ s with run_state := RunState.Finished }).sync_split_type env := by
    unfold AS.sync_with_live_split
    rw [h]
  rw [hred]
  rcases sync_split_type_run_state { s with run_state := RunState.Finished } env with
    h1 | ⟨h1, h2⟩
  · exact Or.inl h1
  · exact Or.inr ⟨h2, h1⟩

theorem sync_ended_finishes_witness :
    (baseState.sync_with_live_split
      { baseEnv with timer_phase := some TimerPhase.Ended }).1.run_state =
        RunState.Finished ∨
    (Cmd.reset ∈ (baseState.sync_with_live_split
        { baseEnv with timer_phase := some TimerPhase.Ended }).2.1 ∧
     (baseState.sync_with_live_split
        { baseEnv with timer_phase := some TimerPhase.Ended }).1.run_state =
          RunState.NotStarted) :=
  sync_ended_finishes baseState { baseEnv with timer_phase := some TimerPhase.Ended } rfl

/-- Helper: whenever a (successful) resynchronization ends with RunState
Intro, the prior state was not Active, the timer's split index was 0, and
the phase was Running or Paused. -/
theorem sync_intro_source (t : AS) (e : Env)
    (hok : (t.sync_with_live_split e).2.2 = true)
    (hin : (t.sync_with_live_split e).1.run_state = RunState.Intro) :
    t.run_state ≠ RunState.Active ∧ e.split_index = some 0 ∧
    (e.timer_phase = some TimerPhase.Running ∨ e.timer_phase = some TimerPhase.Paused) := by
  unfold AS.sync_with_live_split at hok hin
  cases hp : e.timer_phase with
  | none => rw [hp] at hok; simp at hok
  | some phase =>
    rw [hp] at hok hin
    cases phase
    case NotRunning =>
      exfalso
      rcases sync_split_type_run_state { t with run_state := RunState.NotStarted } e with
        h1 | ⟨h1, _⟩ <;> rw [h1] at hin <;> simp at hin
    case Ended =>
      exfalso
      rcases sync_split_type_run_state { t with run_state := RunState.Finished } e with
        h1 | ⟨h1, _⟩ <;> rw [h1] at hin <;> simp at hin
    case Running =>
      by_cases hact : t.run_state = RunState.Active
      · exfalso
        simp only [hact, ne_eq, not_true_eq_false, if_false, ite_false] at hin
        rcases sync_split_type_run_state { t with run_state := RunState.Active } e with
          h1 | ⟨h1, _⟩ <;> rw [h1] at hin <;> simp at hin
      · simp only [hact, ne_eq, not_false_iff, if_true, ite_true] at hok hin
        cases hi : e.split_index with
        | none => rw [hi] at hok; simp at hok
        | some i =>
          rw [hi] at hin
          by_cases hi0 : i = 0
          · subst hi0
            exact ⟨hact, rfl, Or.inl rfl⟩
          · exfalso
            simp only [hi0, ite_false, if_false] at hin
            rcases sync_split_type_run_state { t with run_state := RunState.Active } e with
              h1 | ⟨h1, _⟩ <;> rw [h1] at hin <;> simp at hin
    case Paused =>
      by_cases hact : t.run_state = RunState.Active
      · exfalso
        simp only [hact, ne_eq, not_true_eq_false, if_false, ite_false] at hin
        rcases sync_split_type_run_state { t with run_state := RunState.Active } e with
          h1 | ⟨h1, _⟩ <;> rw [h1] at hin <;> simp at hin
      · simp only [hact, ne_eq, not_false_iff, if_true, ite_true] at hok hin
        cases hi : e.split_index with
        | none => rw [hi] at hok; simp at hok
        | some i =>
          rw [hi] at hin
          by_cases hi0 : i = 0
          · subst hi0
            exact ⟨hact, rfl, Or.inr rfl⟩
          · exfalso
            simp only [hi0, ite_false, if_false] at hin
            rcases sync_split_type_run_state { t with run_state := RunState.Active } e with
              h1 | ⟨h1, _⟩ <;> rw [h1] at hin <;> simp at hin

/-- C9 counterexample: resynchronization with prior RunState Active, timer
phase Running and split index 0 does not leave the run Active — split-type
reconciliation rule 3 fires in the same call and resets it to NotStarted
(the claim's "the resulting RunState is Active" fails). -/
theorem sync_active_counterexample :
    (rule3ActiveState.sync_with_live_split rule3Env).1.run_state ≠ RunState.Active := by
  decide

/-- C9 (amended): resynchronization never demotes an active run to Intro:
with prior RunState Active and phase Running or Paused the result is
Active unless split-type reconciliation forces a reset (then NotStarted
with a reset command), and Intro can only result from a successful
resynchronization when the prior state was not Active and the reported
split index was 0. -/
theorem sync_active_never_intro (s : AS) (env : Env)
    (hact : s.run_state = RunState.Active)
    (hph : env.timer_phase = some TimerPhase.Running ∨
      env.timer_phase = some TimerPhase.Paused) :
    (s.sync_with_live_split env).1.run_state ≠ RunState.Intro ∧
    ((s.sync_with_live_split env).1.run_state = RunState.Active ∨
     (Cmd.reset ∈ (s.sync_with_live_split env).2.1 ∧
      (s.sync_with_live_split env).1.run_state = RunState.NotStarted)) ∧
    (∀ (t : AS) (e : Env), (t.sync_with_live_split e).2.2 = true →
      (t.sync_with_live_split e).1.run_state = RunState.Intro →
      t.run_state ≠ RunState.Active ∧ e.split_index = some 0) := by
  have hred : s.sync_with_live_split env =
      ({ s with run_state := RunState.Active }).sync_split_type env := by
    unfold AS.sync_with_live_split
    rcases hph with h | h <;> rw [h] <;> simp [hact]
  have hrs := sync_split_type_run_state { s with run_state := RunState.Active } env
  refine ⟨?_, ?_, ?_⟩
  · rw [hred]
    rcases hrs with h1 | ⟨h1, _⟩ <;> rw [h1] <;> exact fun hcon => RunState.noConfusion hcon
  · rw [hred]
    rcases hrs with h1 | ⟨h1, h2⟩
    · exact Or.inl h1
    · exact Or.inr ⟨h2, h1⟩
  · intro t e hok hin
    exact ⟨(sync_intro_source t e hok hin).1, (sync_intro_source t e hok hin).2.1⟩

theorem sync_active_never_intro_witness :
    (({ baseState with run_state := RunState.Active } : AS).sync_with_live_split
      baseEnv).1.run_state ≠ RunState.Intro :=
  (sync_active_never_intro { baseState with run_state := RunState.Active } baseEnv
    rfl (Or.inl rfl)).1

/-- Helper: `should_check` never changes the period. -/
theorem should_check_period (c : KeepAliveCounter) :
    (c.should_check).2.period = c.period := by
  unfold KeepAliveCounter.should_check
  by_cases h : c.remaining - 1 < 0 <;> simp [h]

/-- Helper: iterating `should_check` never changes the period. -/
theorem afterCalls_period (c : KeepAliveCounter) (n : Nat) :
    (c.afterCalls n).period = c.period := by
  induction n with
  | zero => rfl
  | succ n ih =>
    show ((c.afterCalls n).should_check).2.period = c.period
    rw [should_check_period, ih]

/-- Helper: starting from a freshly-reset counter, the remaining countdown
after `n ≤ period` calls is `period - n`. -/
theorem afterCalls_remaining (c : KeepAliveCounter) (hp : 0 ≤ c.period)
    (hr : c.remaining = c.period) (n : Nat) (hn : (n : Int) ≤ c.period) :
    (c.afterCalls n).remaining = c.period - n := by
  induction n with
  | zero => simpa using hr
  | succ n ih =>
    have hn' : (n : Int) ≤ c.period := by push_cast at hn ⊢; omega
    have ihr := ih hn'
    show ((c.afterCalls n).should_check).2.remaining = c.period - ((n : Int) + 1)
    unfold KeepAliveCounter.should_check
    rw [ihr]
    have hnot : ¬ c.period - (n : Int) - 1 < 0 := by push_cast at hn; omega
    simp only [hnot, if_false, ite_false]
    ring

/-- C8: starting from a freshly-reset `KeepAliveCounter` (with the
nonnegative period the program always uses), `should_check` returns false
for the first `period` calls and true on the `(period+1)`-th, after which
the counter is back in the freshly-reset state — so it fires exactly once
every `period + 1` calls — and, unconditionally, any call that returns
true resets the remaining countdown to `period`. -/
theorem keep_alive_period_cycle (c : KeepAliveCounter) (hp : 0 ≤ c.period)
    (hr : c.remaining = c.period) :
    (∀ n : Nat, (n : Int) < c.period → c.callResult n = false) ∧
    c.callResult c.period.toNat = true ∧
    (c.afterCalls (c.period.toNat + 1)).remaining = c.period ∧
    (c.afterCalls (c.period.toNat + 1)).period = c.period ∧
    (∀ d : KeepAliveCounter, (d.should_check).1 = true →
      (d.should_check).2.remaining = d.period) := by
  have hto : ((c.period.toNat : Nat) : Int) = c.period := Int.toNat_of_nonneg hp
  refine ⟨?_, ?_, ?_, afterCalls_period c _, ?_⟩
  · intro n hn
    have hrem := afterCalls_remaining c hp hr n (le_of_lt hn)
    unfold KeepAliveCounter.callResult KeepAliveCounter.should_check
    rw [hrem]
    have hnot : ¬ c.period - (n : Int) - 1 < 0 := by omega
    simp [hnot]
  · have hrem := afterCalls_remaining c hp hr c.period.toNat (le_of_eq hto)
    unfold KeepAliveCounter.callResult KeepAliveCounter.should_check
    rw [hrem, hto]
    simp
  · have hrem := afterCalls_remaining c hp hr c.period.toNat (le_of_eq hto)
    show ((c.afterCalls c.period.toNat).should_check).2.remaining = c.period
    unfold KeepAliveCounter.should_check
    rw [hrem, hto]
    simp [afterCalls_period]
  · intro d hd
    unfold KeepAliveCounter.should_check at hd ⊢
    by_cases h : d.remaining - 1 < 0
    · simp [h]
    · simp [h] at hd

theorem keep_alive_period_cycle_witness :
    (KeepAliveCounter.new 2).callResult 0 = false ∧
    (KeepAliveCounter.new 2).callResult 1 = false ∧
    (KeepAliveCounter.new 2).callResult 2 = true ∧
    ((KeepAliveCounter.new 2).afterCalls 3).remaining = 2 := by
  have h := keep_alive_period_cycle (KeepAliveCounter.new 2) (by decide) (by decide)
  exact ⟨h.1 0 (by decide), h.1 1 (by decide), h.2.1, h.2.2.1⟩

/-- Helper: when the LiveSplit keep-alive is not due, `update_splits` just
decrements the counter and proceeds to the emulator check. -/
theorem update_splits_skip_ls (s : AS) (env : Env)
    (hls : (s.live_split_keep_alive.should_check).1 = false) :
    s.update_splits env =
      ({ s with live_split_keep_alive :=
        (s.live_split_keep_alive.should_check).2 }).emulator_check_tick env := by
  unfold AS.update_splits
  have h1 : s.live_split_keep_alive.should_check =
      (false, (s.live_split_keep_alive.should_check).2) := by
    rw [← hls]
  rw [h1]
  rfl

/-- Helper: when the emulator keep-alive is not due, `emulator_check_tick`
just decrements the counter and proceeds to the game check. -/
theorem emulator_check_tick_skip (s : AS) (env : Env)
    (hem : (s.emulator_keep_alive.should_check).1 = false) :
    s.emulator_check_tick env =
      ({ s with emulator_keep_alive :=
        (s.emulator_keep_alive.should_check).2 }).game_check_tick env := by
  unfold AS.emulator_check_tick
  have h1 : s.emulator_keep_alive.should_check =
      (false, (s.emulator_keep_alive.should_check).2) := by
    rw [← hem]
  rw [h1]
  rfl

/-- Helper: when the game keep-alive is not due, `game_check_tick` just
decrements the counter and proceeds to the run-state logic. -/
theorem game_check_tick_skip (s : AS) (env : Env)
    (hgm : (s.game_keep_alive.should_check).1 = false) :
    s.game_check_tick env =
      ({ s with game_keep_alive :=
        (s.game_keep_alive.should_check).2 }).run_tick env := by
  unfold AS.game_check_tick
  have h1 : s.game_keep_alive.should_check =
      (false, (s.game_keep_alive.should_check).2) := by
    rw [← hgm]
  rw [h1]
  rfl

/-- Helper: the progression phase with no route table active, an active
run outside the final-boss room, the player away from the main menu, and a
room change emits exactly one split and records the new room. -/
theorem run_tick_all_doors (s : AS) (env : Env)
    (hact : s.run_state = RunState.Active) (hmenu : env.is_at_main_menu = false)
    (hsplits : s.splits = none) (hroom : s.last_room ≠ current_room env)
    (hboss : s.last_room ≠ FINAL_BOSS_ROOM) :
    s.run_tick env =
      Except.ok ({ s with last_room := current_room env }, [Cmd.split]) := by
  unfold AS.run_tick
  rw [hact]
  simp [RunState.is_active, hmenu, hsplits, hboss, hroom, AS.split, hact]

/-- C1 counterexample: a fully healthy Connected tick with no route table,
RunState Active and `last_room ≠ current_location` — but `last_room` is
the final-boss room, where location-based splitting is suspended: no split
is emitted, yet `last_room` is still updated. -/
theorem update_splits_boss_room_counterexample :
    bossRoomState.splits = none ∧
    bossRoomState.run_state = RunState.Active ∧
    bossRoomState.last_room ≠ current_room bossRoomEnv ∧
    bossRoomState.update_splits bossRoomEnv =
      Except.ok ({ bossRoomState with
        live_split_keep_alive := ⟨334, 333⟩
        emulator_keep_alive := ⟨334, 333⟩
        game_keep_alive := ⟨200, 199⟩
        last_room := (0, 5) }, []) := by
  refine ⟨rfl, rfl, by decide, by rfl⟩

/-- C1 (amended): on a Connected tick on which none of the three
keep-alive checks is due, the game is not at the main menu, no route table
is active, RunState is Active, `last_room` differs from the current
location, and `last_room` is not the final-boss room (where location-based
splitting is suspended), exactly one split command is emitted and
`last_room` is updated to the current location. -/
theorem update_splits_all_doors_split (s : AS) (env : Env)
    (hconn : s.connection_state = ConnectionState.Connected)
    (hls : (s.live_split_keep_alive.should_check).1 = false)
    (hem : (s.emulator_keep_alive.should_check).1 = false)
    (hgm : (s.game_keep_alive.should_check).1 = false)
    (hact : s.run_state = RunState.Active)
    (hmenu : env.is_at_main_menu = false)
    (hsplits : s.splits = none)
    (hroom : s.last_room ≠ current_room env)
    (hboss : s.last_room ≠ FINAL_BOSS_ROOM) :
    s.update_splits env =
      Except.ok ({ s with
        live_split_keep_alive := (s.live_split_keep_alive.should_check).2
        emulator_keep_alive := (s.emulator_keep_alive.should_check).2
        game_keep_alive := (s.game_keep_alive.should_check).2
        last_room := current_room env }, [Cmd.split]) := by
  rw [update_splits_skip_ls s env hls]
  rw [emulator_check_tick_skip _ env (by exact hem)]
  rw [game_check_tick_skip _ env (by exact hgm)]
  rw [run_tick_all_doors _ env (by exact hact) hmenu (by exact hsplits)
    (by exact hroom) (by exact hboss)]

theorem update_splits_all_doors_split_witness :
    roomChangeState.update_splits bossRoomEnv =
      Except.ok ({ roomChangeState with
        live_split_keep_alive := (roomChangeState.live_split_keep_alive.should_check).2
        emulator_keep_alive := (roomChangeState.emulator_keep_alive.should_check).2
        game_keep_alive := (roomChangeState.game_keep_alive.should_check).2
        last_room := current_room bossRoomEnv }, [Cmd.split]) :=
  update_splits_all_doors_split roomChangeState bossRoomEnv rfl (by decide) (by decide)
    (by decide) rfl rfl rfl (by decide) (by decide)

end Galerians

